import Mathlib

/-!
Verification of the TA_20250516_AI_ECOMMERCE_ASSISTANT repository.

The repository is a small Python console assistant consisting of two files:
assistant_functions.py (catalog loading and product lookup) and main.py
(the conversation loop dispatching model-requested function calls).
This file gives a shallow embedding of that code in Lean and proves, or
refutes, the specification claims about it.

Modelling conventions:
- Python JSON values are the inductive type JValue; a Python dict is an
  association list PyDict with unique keys looked up by List.lookup,
  which returns the first binding, matching dict semantics.
- Python exceptions are the PyError type; fallible code returns Except.
- Python str.lower is modelled by mapping Char.toLower over the
  characters; the two agree on ASCII, which covers every string the
  repository compares.
- Reading the catalog file composes open (FileNotFoundError when the file
  is absent) and json.load (JSONDecodeError when the content is not valid
  JSON). Both are Python standard library calls, so their outcome is
  modelled by the FileRead type: the file is missing, or present with
  invalid JSON, or present and parsed to a JValue.
-/

/-- JSON values as produced by json.load. Numbers are rationals; the
catalog numbers are decimals, and no arithmetic in the code depends on
binary floating point. -/
inductive JValue where
  | null : JValue
  | bool (b : Bool) : JValue
  | num (q : Rat) : JValue
  | str (s : String) : JValue
  | arr (elems : List JValue) : JValue
  | obj (fields : List (String × JValue)) : JValue
deriving Repr

/-- A Python dict with string keys, as an association list. -/
abbrev PyDict := List (String × JValue)

/-- Python exceptions that the embedded code can raise. -/
inductive PyError where
  | keyError (k : String) : PyError
  | attributeError : PyError
  | typeError : PyError
  | valueError : PyError
deriving Repr, DecidableEq

/-- Python subscript d[k] on a dict: the value, or KeyError. -/
def pyGetItem (d : PyDict) (k : String) : Except PyError JValue :=
  match List.lookup k d with
  | some v => Except.ok v
  | none => Except.error (PyError.keyError k)

/-- Python str.lower, modelled on the character list (ASCII-faithful). -/
def str_lower (s : String) : String :=
  String.mk (s.data.map Char.toLower)

/-- Python x.lower() on a JSON value: only a str has the attribute. -/
def pyLower : JValue → Except PyError String
  | JValue.str s => Except.ok (str_lower s)
  | _ => Except.error PyError.attributeError

/-- Python truthiness of an optional dict: None and the empty dict are
falsy, every non-empty dict is truthy. -/
def pyTruthy : Option PyDict → Bool
  | none => false
  | some d => !d.isEmpty

/-- Python x > 0 on a JSON value: numbers compare, bool counts as the
ints 0 and 1, anything else raises TypeError. -/
def pyGtZero : JValue → Except PyError Bool
  | JValue.num q => Except.ok (decide (0 < q))
  | JValue.bool b => Except.ok b
  | _ => Except.error PyError.typeError

/-- Embedding of assistant_functions.get_product_info: scan the catalog in
order; on the first record whose name (lowercased) equals the lowercased
query, build a fresh five-key dict from the record; return none when no
record matches. Each subscript can raise KeyError and lower can raise
AttributeError, exactly as in Python, with the dict literal evaluating its
values in source order id, name, description, price, stock. -/
def get_product_info (product_name : String) : List PyDict → Except PyError (Option PyDict)
  | [] => Except.ok none
  | product :: rest => do
    let namev ← pyGetItem product "name"
    let lname ← pyLower namev
    if lname = str_lower product_name then
      let idv ← pyGetItem product "id"
      let namev2 ← pyGetItem product "name"
      let descv ← pyGetItem product "description"
      let pricev ← pyGetItem product "price"
      let stockv ← pyGetItem product "stock"
      pure (some [("id", idv), ("name", namev2), ("description", descv),
                  ("price", pricev), ("stock", stockv)])
    else
      get_product_info product_name rest

/-- Embedding of assistant_functions.check_stock: look the product up; if
the result is truthy, test its stock for positivity, otherwise return
false. -/
def check_stock (product_name : String) (catalog : List PyDict) : Except PyError Bool := do
  let product ← get_product_info product_name catalog
  match product with
  | some p =>
    if p.isEmpty then
      pure false
    else do
      let stockv ← pyGetItem p "stock"
      pyGtZero stockv
  | none => pure false

/-- Outcome of opening and json.load-ing the catalog file: the backing
file is absent, or present but not valid JSON, or parsed to a value. -/
inductive FileRead where
  | missing : FileRead
  | invalid : FileRead
  | parsed (v : JValue) : FileRead

/-- Catalog-load failures in the terms of the specification taxonomy:
ResourceNotFound is FileNotFoundError, MalformedData is
json.JSONDecodeError. -/
inductive LoadError where
  | resourceNotFound : LoadError
  | malformedData : LoadError
deriving Repr, DecidableEq

/-- Embedding of assistant_functions.load_product_catalog: open the file
and return whatever json.load parses, with no validation of the shape of
the parsed value. -/
def load_product_catalog : FileRead → Except LoadError JValue
  | FileRead.missing => Except.error LoadError.resourceNotFound
  | FileRead.invalid => Except.error LoadError.malformedData
  | FileRead.parsed v => Except.ok v

/-- One entry of the conversation transcript: a role-tagged message, with
the function name tag present exactly on function-result turns, mirroring
the dicts appended to the messages list in main.py. -/
structure Message where
  role : String
  name : Option String := none
  content : String
deriving Repr, DecidableEq

/-- Observable steps of one iteration of the main loop, in order: the two
chat.completions.create calls, console printing, and transcript appends. -/
inductive Event where
  | modelCall1 : Event
  | modelCall2 : Event
  | print (line : String) : Event
  | append (m : Message) : Event
deriving Repr, DecidableEq

/-- Response of the first model call: either plain text (no function_call
attribute, or function_call set to None) or a function-call request. The
arguments payload arrives as a string that main.py feeds to json.loads;
json.loads is standard library code, so it is modelled by its outcome:
some parsed JSON value (not necessarily an object) when parsing succeeds,
none when it raises. -/
inductive ModelResponse where
  | text (content : String) : ModelResponse
  | functionCall (name : String) (parsedArguments : Option JValue) : ModelResponse
deriving Repr

/-- Python arguments.get(k, default): on a dict, the stored value of any
type, or the default when the key is absent; on any non-dict value the
attribute access itself raises AttributeError. -/
def pyGet (v : JValue) (k : String) (default : JValue) : Except PyError JValue :=
  match v with
  | JValue.obj fields => Except.ok ((List.lookup k fields).getD default)
  | _ => Except.error PyError.attributeError

/-- Python get_product_info applied to an arbitrary product_name object,
as the dispatch of main.py can do when the model sends a non-string
argument value. A str argument behaves as get_product_info. A non-str
argument returns None without error on an empty catalog (the loop body
never runs), and on a non-empty catalog the first iteration evaluates the
comparison left to right — the first record's name subscript (KeyError if
absent), its lower() (AttributeError if not a str), then the query's
lower(), which raises AttributeError because the query is not a str. -/
def get_product_info_py : JValue → List PyDict → Except PyError (Option PyDict)
  | JValue.str s, catalog => get_product_info s catalog
  | _, [] => Except.ok none
  | _, product :: _ => do
    let namev ← pyGetItem product "name"
    let _ ← pyLower namev
    Except.error PyError.attributeError

/-- Python check_stock applied to an arbitrary product_name object: its
body delegates to get_product_info first, so a non-str query fails or
succeeds exactly as get_product_info_py does. -/
def check_stock_py (product_name : JValue) (catalog : List PyDict) : Except PyError Bool := do
  let product ← get_product_info_py product_name catalog
  match product with
  | some p =>
    if p.isEmpty then
      pure false
    else do
      let stockv ← pyGetItem p "stock"
      pyGtZero stockv
  | none => pure false

/-- Decimal rendering of an integer n as n div 100 point two digits,
implementing the Python format specifier .2f on the rounded value. -/
def twoDecimalsOfInt (n : Int) : String :=
  let a := n.natAbs
  (if n < 0 then "-" else "") ++ toString (a / 100) ++ "." ++
    (if a % 100 < 10 then "0" else "") ++ toString (a % 100)

/-- Python format(x, ".2f") for a rational: round to cents and render.
Python rounds the underlying binary double half-to-even; on the two-place
decimals stored in the catalog the two renderings agree. -/
def format2f (q : Rat) : String :=
  twoDecimalsOfInt (round (q * 100))

/-- Python format specifier .2f applied to a JSON value: numbers format,
bool formats as the ints 0 and 1, anything else raises. -/
def pyFormat2f : JValue → Except PyError String
  | JValue.num q => Except.ok (format2f q)
  | JValue.bool b => Except.ok (if b then "1.00" else "0.00")
  | _ => Except.error PyError.valueError

/-- Python str() of a JSON value, as f-string interpolation applies it.
Scalar cases are exact (ints render without a decimal point); container
and non-integer renderings are schematic, and no theorem below evaluates
them because the repository only interpolates strings and integers. -/
def pyStr : JValue → String
  | JValue.null => "None"
  | JValue.bool b => if b then "True" else "False"
  | JValue.num q => if q.den = 1 then toString q.num else toString q.num ++ "/" ++ toString q.den
  | JValue.str s => s
  | JValue.arr _ => "[...]"
  | JValue.obj _ => "\x7b...\x7d"

/-- The not-found message of the get_product_info branch of main.py. -/
def no_product_msg (product_name : String) : String :=
  "❌ No product found with name \x27" ++ (product_name ++ "\x27.")

/-- The available message of the check_stock branch of main.py. -/
def in_stock_msg (product_name : String) : String :=
  "✅ \x27" ++ (product_name ++ "\x27 is available in stock.")

/-- The out-of-stock message of the check_stock branch of main.py. -/
def out_of_stock_msg (product_name : String) : String :=
  "⚠️ \x27" ++ (product_name ++ "\x27 is currently out of stock.")

/-- The message produced for an unrecognized function name in main.py. -/
def unknown_function_msg : String := "❓ Unknown function requested."

/-- The farewell line printed when an exit phrase is typed. -/
def farewell_msg : String := "Asistente: ¡Gracias por usar el asistente! Hasta luego."

/-- The four-line product summary built in the get_product_info branch of
main.py, with each field interpolated by str() and the price formatted to
two decimal places. Subscripts on the product dict can raise KeyError
exactly as in Python, in source order. -/
def format_product_response (product : PyDict) : Except PyError String := do
  let namev ← pyGetItem product "name"
  let descv ← pyGetItem product "description"
  let pricev ← pyGetItem product "price"
  let prices ← pyFormat2f pricev
  let stockv ← pyGetItem product "stock"
  pure ("🛍️ Product: " ++ pyStr namev ++ "\n" ++
        "📄 Description: " ++ pyStr descv ++ "\n" ++
        "💲 Price: $" ++ prices ++ "\n" ++
        "📦 Stock: " ++ pyStr stockv ++ " units")

/-- The function-name dispatch of main.py: the two supported names
extract product_name with arguments.get (which raises AttributeError when
the parsed arguments are not a dict), call into the Product Query Service
with the extracted value of whatever type it has, and format the result,
interpolating the value by str(); any other name yields the
unknown-function message without touching the arguments. -/
def dispatch_response (function_name : String) (arguments : JValue)
    (catalog : List PyDict) : Except PyError String :=
  if function_name = "get_product_info" then do
    let product_name ← pyGet arguments "product_name" (JValue.str "")
    let product ← get_product_info_py product_name catalog
    match product with
    | some p =>
      if p.isEmpty then pure (no_product_msg (pyStr product_name))
      else format_product_response p
    | none => pure (no_product_msg (pyStr product_name))
  else if function_name = "check_stock" then do
    let product_name ← pyGet arguments "product_name" (JValue.str "")
    let in_stock ← check_stock_py product_name catalog
    pure (if in_stock then in_stock_msg (pyStr product_name)
          else out_of_stock_msg (pyStr product_name))
  else
    pure unknown_function_msg

/-- The exit phrases recognized by the main loop. -/
def exit_phrases : List String := ["salir", "exit", "quit"]

/-- One iteration of the while loop of main.py, given the line read from
the user and, as oracle inputs, the responses of the external model
capability for the up to two calls the iteration can make. Returns the
ordered list of observable events and whether the loop exited. The exit
test precedes the transcript append, as in the source. On a PyError the
Python process would die mid-turn; the theorems below only evaluate turns
on catalogs where no error occurs. -/
def runTurn (user_input : String) (catalog : List PyDict)
    (resp1 : ModelResponse) (resp2 : String) : Except PyError (List Event × Bool) :=
  if exit_phrases.contains (str_lower user_input) then
    Except.ok ([Event.print farewell_msg], true)
  else
    let userMsg : Message := ⟨"user", none, user_input⟩
    match resp1 with
    | ModelResponse.functionCall function_name argPayload => do
      let arguments := argPayload.getD (JValue.obj [])
      let function_response ← dispatch_response function_name arguments catalog
      let funcMsg : Message := ⟨"function", some function_name, function_response⟩
      let asstMsg : Message := ⟨"assistant", none, resp2⟩
      pure ([Event.append userMsg, Event.modelCall1, Event.append funcMsg,
             Event.modelCall2, Event.print ("Asistente: " ++ resp2),
             Event.append asstMsg], false)
    | ModelResponse.text content =>
      Except.ok ([Event.append userMsg, Event.modelCall1,
                  Event.print ("Asistente: " ++ content),
                  Event.append ⟨"assistant", none, content⟩], false)

/-- Number of outbound calls to the external model capability in a list
of turn events. -/
def numModelCalls (events : List Event) : Nat :=
  events.countP fun e =>
    match e with
    | Event.modelCall1 => true
    | Event.modelCall2 => true
    | _ => false

/-! Specification-side predicates and helper lemmas. -/

@[simp] theorem ebind_ok {ε α β : Type} (a : α) (f : α → Except ε β) :
    (Except.ok a : Except ε α) >>= f = f a := rfl

@[simp] theorem ebind_err {ε α β : Type} (e : ε) (f : α → Except ε β) :
    (Except.error e : Except ε α) >>= f = Except.error e := rfl

/-- A record matches a query when its name field is a string equal to the
query up to lowercasing. -/
def name_matches (q : String) (r : PyDict) : Bool :=
  match List.lookup "name" r with
  | some (JValue.str s) => str_lower s == str_lower q
  | _ => false

/-- The five-key projection of a record, in the construction order of the
dict literal of get_product_info. -/
def as_product (r : PyDict) : PyDict :=
  [("id", (List.lookup "id" r).getD JValue.null),
   ("name", (List.lookup "name" r).getD JValue.null),
   ("description", (List.lookup "description" r).getD JValue.null),
   ("price", (List.lookup "price" r).getD JValue.null),
   ("stock", (List.lookup "stock" r).getD JValue.null)]

/-- A record is well typed in the sense of the data model of the
specification: string name and description, numeric price and stock, and
an id of any value. -/
def wellTypedRecord (r : PyDict) : Bool :=
  match List.lookup "name" r, List.lookup "id" r, List.lookup "description" r,
        List.lookup "price" r, List.lookup "stock" r with
  | some (JValue.str _), some _, some (JValue.str _), some (JValue.num _), some (JValue.num _) => true
  | _, _, _, _, _ => false

/-- A catalog is well typed when all its records are. -/
def wellTypedCatalog (catalog : List PyDict) : Bool :=
  catalog.all wellTypedRecord

theorem wellTypedRecord_spec {r : PyDict} (h : wellTypedRecord r = true) :
    ∃ s idv ds pq sq,
      List.lookup "name" r = some (JValue.str s) ∧
      List.lookup "id" r = some idv ∧
      List.lookup "description" r = some (JValue.str ds) ∧
      List.lookup "price" r = some (JValue.num pq) ∧
      List.lookup "stock" r = some (JValue.num sq) := by
  unfold wellTypedRecord at h
  split at h
  · rename_i heq1 heq2 heq3 heq4 heq5
    exact ⟨_, _, _, _, _, heq1, heq2, heq3, heq4, heq5⟩
  · cases h

/-- On a well-typed catalog, get_product_info is the first case-insensitive
exact name match, projected to the five product keys. -/
theorem gpi_char (q : String) :
    ∀ C : List PyDict, wellTypedCatalog C = true →
      get_product_info q C = Except.ok ((C.find? (name_matches q)).map as_product) := by
  intro C
  induction C with
  | nil => intro _; rfl
  | cons r rest ih =>
    intro h
    rw [wellTypedCatalog, List.all_cons, Bool.and_eq_true] at h
    obtain ⟨hr, hrest⟩ := h
    obtain ⟨s, idv, ds, pq, sq, h1, h2, h3, h4, h5⟩ := wellTypedRecord_spec hr
    have hpg : pyGetItem r "name" = Except.ok (JValue.str s) := by simp [pyGetItem, h1]
    have hid : pyGetItem r "id" = Except.ok idv := by simp [pyGetItem, h2]
    have hdesc : pyGetItem r "description" = Except.ok (JValue.str ds) := by simp [pyGetItem, h3]
    have hprice : pyGetItem r "price" = Except.ok (JValue.num pq) := by simp [pyGetItem, h4]
    have hstock : pyGetItem r "stock" = Except.ok (JValue.num sq) := by simp [pyGetItem, h5]
    simp only [get_product_info, hpg, hid, hdesc, hprice, hstock, ebind_ok, pyLower]
    by_cases hm : str_lower s = str_lower q
    · have hnm : name_matches q r = true := by simp [name_matches, h1, hm]
      rw [List.find?_cons_of_pos _ hnm, if_pos hm]
      simp [as_product, h1, h2, h3, h4, h5, pure, Except.pure]
    · have hnm : name_matches q r = false := by
        simp [name_matches, h1, hm]
      rw [List.find?_cons_of_neg _ (by simp [hnm]), if_neg hm]
      exact ih hrest

/-- The lookup depends on the query only through its lowercasing: two
queries with the same lowercase form are indistinguishable, on every
catalog, well typed or not. -/
theorem gpi_query_lower (q1 q2 : String) (hq : str_lower q1 = str_lower q2) :
    ∀ C : List PyDict, get_product_info q1 C = get_product_info q2 C := by
  intro C
  induction C with
  | nil => rfl
  | cons r rest ih =>
    simp only [get_product_info, hq, ih]

theorem wellTypedRecord_of_find {C : List PyDict} {p : PyDict → Bool} {r : PyDict}
    (h : wellTypedCatalog C = true) (hf : C.find? p = some r) :
    wellTypedRecord r = true := by
  have hm : r ∈ C := List.mem_of_find?_eq_some hf
  exact List.all_eq_true.mp h r hm

/-- On a well-typed catalog, check_stock is the stock positivity of the
first matching record, and false when no record matches. -/
theorem cs_char (n : String) (C : List PyDict) (h : wellTypedCatalog C = true) :
    check_stock n C = Except.ok (
      match C.find? (name_matches n) with
      | some r =>
        match List.lookup "stock" r with
        | some (JValue.num q) => decide (0 < q)
        | _ => false
      | none => false) := by
  rw [check_stock, gpi_char n C h]
  cases hf : C.find? (name_matches n) with
  | none => simp [pure, Except.pure]
  | some r =>
    obtain ⟨s, idv, ds, pq, sq, h1, h2, h3, h4, h5⟩ :=
      wellTypedRecord_spec (wellTypedRecord_of_find h hf)
    simp [as_product, h1, h2, h3, h4, h5, pyGetItem, pyGtZero, pure, Except.pure,
      List.lookup, List.isEmpty]

/-- A two-record demonstration catalog with duplicate names up to case:
witnesses instantiate the universally quantified claims on it. -/
def demo_catalog : List PyDict :=
  [[("id", JValue.num 1), ("name", JValue.str "Widget"), ("description", JValue.str "first"),
    ("price", JValue.num 5), ("stock", JValue.num 3)],
   [("id", JValue.num 2), ("name", JValue.str "widget"), ("description", JValue.str "second"),
    ("price", JValue.num 6), ("stock", JValue.num 0)]]

/-! Claim C1. -/

/-- C1: for every well-typed catalog and every query name, get_product_info
scans the catalog in order and returns the first record whose name equals
the query under case-insensitive equality (exact equality of the lowercased
strings, not substring), projected to the five product keys, or none when
no record matches; and lookups for widget and WIDGET coincide on every
catalog, so with duplicate names the first occurrence in catalog order
wins. -/
theorem claim_C1_first_ci_match (q : String) (C : List PyDict)
    (h : wellTypedCatalog C = true) :
    get_product_info q C = Except.ok ((C.find? (name_matches q)).map as_product) ∧
    ∀ D : List PyDict, get_product_info "widget" D = get_product_info "WIDGET" D :=
  ⟨gpi_char q C h, fun D => gpi_query_lower "widget" "WIDGET" rfl D⟩

/-- Witness for C1 on the demonstration catalog: the query WIDGET returns
the first of the two records whose names both lowercase to widget. -/
theorem claim_C1_first_ci_match_witness :
    get_product_info "WIDGET" demo_catalog =
      Except.ok ((demo_catalog.find? (name_matches "WIDGET")).map as_product) ∧
    get_product_info "widget" demo_catalog = get_product_info "WIDGET" demo_catalog :=
  ⟨(claim_C1_first_ci_match "WIDGET" demo_catalog rfl).1,
   (claim_C1_first_ci_match "WIDGET" demo_catalog rfl).2 demo_catalog⟩

/-! Claim C2. -/

/-- The catalog of the C2 scenario exactly as the claim writes it: the
record carries id, name, price and stock but no description field. -/
def water_bottle_no_desc : PyDict :=
  [("id", JValue.num 1), ("name", JValue.str "Water Bottle"),
   ("price", JValue.num 9.99), ("stock", JValue.num 0)]

/-- The C2 scenario record repaired with the description field that
get_product_info reads unconditionally on a name match. -/
def water_catalog : List PyDict :=
  [[("id", JValue.num 1), ("name", JValue.str "Water Bottle"),
    ("description", JValue.str "Reusable bottle"),
    ("price", JValue.num 9.99), ("stock", JValue.num 0)]]

/-- Counterexample to C2 as stated: on the scenario catalog whose only
record has no description field, both lookups raise KeyError on
description, so check_stock of water bottle is not false and the price of
the found product is not 9.99 — there is no found product at all. -/
theorem claim_C2_scenario_cex :
    check_stock "water bottle" [water_bottle_no_desc] =
      Except.error (PyError.keyError "description") ∧
    check_stock "water bottle" [water_bottle_no_desc] ≠ Except.ok false ∧
    get_product_info "Water Bottle" [water_bottle_no_desc] =
      Except.error (PyError.keyError "description") := by
  refine ⟨rfl, ?_, rfl⟩
  intro h
  rw [show check_stock "water bottle" [water_bottle_no_desc] =
        Except.error (PyError.keyError "description") from rfl] at h
  exact Except.noConfusion h

/-- C2 amended: on well-typed catalogs, check_stock succeeds and is true
exactly when get_product_info finds a record whose numeric stock is
strictly positive — in particular false both for a missing product and
for zero stock; and the scenario holds once the scenario record also
carries its description field: check_stock of water bottle is false while
the found price of Water Bottle is 9.99. -/
theorem claim_C2_stock_iff (n : String) (C : List PyDict)
    (h : wellTypedCatalog C = true) :
    (∃ b, check_stock n C = Except.ok b ∧
      (b = true ↔ ∃ r q, C.find? (name_matches n) = some r ∧
        List.lookup "stock" r = some (JValue.num q) ∧ 0 < q)) ∧
    check_stock "water bottle" water_catalog = Except.ok false ∧
    ∃ p, get_product_info "Water Bottle" water_catalog = Except.ok (some p) ∧
      List.lookup "price" p = some (JValue.num 9.99) := by
  refine ⟨⟨_, cs_char n C h, ?_⟩, rfl, _, rfl, rfl⟩
  cases hf : C.find? (name_matches n) with
  | none => simp [hf]
  | some r =>
    obtain ⟨s, idv, ds, pq, sq, h1, h2, h3, h4, h5⟩ :=
      wellTypedRecord_spec (wellTypedRecord_of_find h hf)
    simp [hf, h5]

/-- Witness for the amended C2 at the scenario catalog and query. -/
theorem claim_C2_stock_iff_witness :
    (∃ b, check_stock "water bottle" water_catalog = Except.ok b ∧
      (b = true ↔ ∃ r q, water_catalog.find? (name_matches "water bottle") = some r ∧
        List.lookup "stock" r = some (JValue.num q) ∧ 0 < q)) ∧
    check_stock "water bottle" water_catalog = Except.ok false ∧
    ∃ p, get_product_info "Water Bottle" water_catalog = Except.ok (some p) ∧
      List.lookup "price" p = some (JValue.num 9.99) :=
  claim_C2_stock_iff "water bottle" water_catalog rfl

/-! Claim C4. -/

/-- A parsed catalog whose single record lacks the price field, exactly
the malformed shape the claim says the loader must reject. -/
def missing_price_catalog : JValue :=
  JValue.arr [JValue.obj [("id", JValue.num 1), ("name", JValue.str "Thing"),
    ("description", JValue.str "d"), ("stock", JValue.num 3)]]

/-- Counterexample to C4 as stated: a catalog record missing the required
price field is valid JSON, so json.load succeeds and load_product_catalog
returns the value unchanged instead of raising MalformedData. -/
theorem claim_C4_missing_price_cex :
    load_product_catalog (FileRead.parsed missing_price_catalog) =
      Except.ok missing_price_catalog ∧
    load_product_catalog (FileRead.parsed missing_price_catalog) ≠
      Except.error LoadError.malformedData := by
  refine ⟨rfl, ?_⟩
  intro h
  exact Except.noConfusion h

/-- C4 amended: a missing backing resource raises ResourceNotFound and
content that is not valid JSON raises MalformedData, but the loader
performs no shape validation at all — every successfully parsed value,
including a catalog with a record missing the price field, is returned
as is, with no error and no silent skipping. -/
theorem claim_C4_load_no_validation :
    load_product_catalog FileRead.missing = Except.error LoadError.resourceNotFound ∧
    load_product_catalog FileRead.invalid = Except.error LoadError.malformedData ∧
    ∀ v : JValue, load_product_catalog (FileRead.parsed v) = Except.ok v :=
  ⟨rfl, rfl, fun _ => rfl⟩

/-! Claim C9. -/

/-- The exact domain condition of the scan: every record inspected before
the first case-insensitive name match has a string-valued name, and the
matched record also carries the other four keys. -/
def scan_safe (q : String) : List PyDict → Bool
  | [] => true
  | r :: rest =>
    match List.lookup "name" r with
    | some (JValue.str s) =>
      if str_lower s = str_lower q then
        (List.lookup "id" r).isSome && (List.lookup "description" r).isSome &&
        (List.lookup "price" r).isSome && (List.lookup "stock" r).isSome
      else scan_safe q rest
    | _ => false

theorem gpi_total_of_scan_safe (q : String) :
    ∀ C : List PyDict, scan_safe q C = true →
      ∃ res, get_product_info q C = Except.ok res := by
  intro C
  induction C with
  | nil => exact fun _ => ⟨none, rfl⟩
  | cons r rest ih =>
    intro h
    rw [scan_safe] at h
    split at h
    · rename_i s hl
      have hpg : pyGetItem r "name" = Except.ok (JValue.str s) := by simp [pyGetItem, hl]
      by_cases hm : str_lower s = str_lower q
      · rw [if_pos hm] at h
        rw [Bool.and_eq_true, Bool.and_eq_true, Bool.and_eq_true] at h
        obtain ⟨⟨⟨hid, hdesc⟩, hprice⟩, hstock⟩ := h
        obtain ⟨idv, hid⟩ := Option.isSome_iff_exists.mp hid
        obtain ⟨descv, hdesc⟩ := Option.isSome_iff_exists.mp hdesc
        obtain ⟨pricev, hprice⟩ := Option.isSome_iff_exists.mp hprice
        obtain ⟨stockv, hstock⟩ := Option.isSome_iff_exists.mp hstock
        refine ⟨some [("id", idv), ("name", JValue.str s), ("description", descv),
          ("price", pricev), ("stock", stockv)], ?_⟩
        simp [get_product_info, hpg, pyLower, if_pos hm, pyGetItem,
          hl, hid, hdesc, hprice, hstock, pure, Except.pure]
      · rw [if_neg hm] at h
        obtain ⟨res, hres⟩ := ih h
        refine ⟨res, ?_⟩
        simp only [get_product_info, hpg, ebind_ok, pyLower, if_neg hm]
        exact hres
    · cases h

/-- C9: get_product_info is total exactly on its documented domain — when
every record scanned up to the first match has a string name and the
matched record carries the other four keys, the call returns without
error; a record missing the name key makes the lookup raise KeyError
instead of returning the not-found sentinel, a matched record missing a
field raises KeyError on that field, and load_product_catalog establishes
none of this, returning every parsed value unvalidated. -/
theorem claim_C9_partiality :
    (∀ q C, scan_safe q C = true → ∃ res, get_product_info q C = Except.ok res) ∧
    get_product_info "anything" [[("id", JValue.num 1)]] =
      Except.error (PyError.keyError "name") ∧
    get_product_info "Gadget" [[("name", JValue.str "Gadget")]] =
      Except.error (PyError.keyError "id") ∧
    ∀ v : JValue, load_product_catalog (FileRead.parsed v) = Except.ok v :=
  ⟨fun q => gpi_total_of_scan_safe q, rfl, rfl, fun _ => rfl⟩

/-- Witness for C9: the totality part applied on the demonstration
catalog, whose scan is safe for the query widget. -/
theorem claim_C9_partiality_witness :
    ∃ res, get_product_info "widget" demo_catalog = Except.ok res :=
  claim_C9_partiality.1 "widget" demo_catalog rfl

/-! Claim C3. -/

/-- Counterexample to C3 as stated: an exit phrase as the very first input
ends the session with the farewell printed and zero model calls, but the
input is never appended to the transcript — the exit test in main.py
precedes the append, so the turn produces no append event at all. -/
theorem claim_C3_exit_cex :
    runTurn "exit" [] (ModelResponse.text "hola") "x" =
      Except.ok ([Event.print farewell_msg], true) ∧
    Event.append ⟨"user", none, "exit"⟩ ∉ [Event.print farewell_msg] :=
  ⟨rfl, by decide⟩

/-- C3 amended: whenever the lowercased input is one of the exit phrases
salir, exit, quit, the session ends with only the farewell printed: the
input is not appended to the transcript (no turn of any role is), no call
to the external model capability is made, and the loop exits. -/
theorem claim_C3_exit_turn (input : String) (catalog : List PyDict)
    (resp1 : ModelResponse) (resp2 : String)
    (h : exit_phrases.contains (str_lower input) = true) :
    runTurn input catalog resp1 resp2 = Except.ok ([Event.print farewell_msg], true) ∧
    numModelCalls [Event.print farewell_msg] = 0 ∧
    ∀ m : Message, Event.append m ∉ [Event.print farewell_msg] := by
  have hmem : str_lower input ∈ exit_phrases := by simpa using h
  refine ⟨by simp [runTurn, hmem], rfl, ?_⟩
  intro m hm
  simp at hm

/-- Witness for the amended C3 at the mixed-case input Salir, showing the
match is case-insensitive. -/
theorem claim_C3_exit_turn_witness :
    runTurn "Salir" demo_catalog (ModelResponse.text "hola") "x" =
      Except.ok ([Event.print farewell_msg], true) ∧
    numModelCalls [Event.print farewell_msg] = 0 ∧
    ∀ m : Message, Event.append m ∉ [Event.print farewell_msg] :=
  claim_C3_exit_turn "Salir" demo_catalog (ModelResponse.text "hola") "x" rfl

/-! Dispatch totality on well-typed catalogs, used by the turn claims. -/

theorem pyGetItem_ok {r : PyDict} {k : String} {v : JValue} :
    pyGetItem r k = Except.ok v ↔ List.lookup k r = some v := by
  cases hlk : List.lookup k r <;> simp [pyGetItem, hlk]

theorem format_product_response_total {r : PyDict} (h : wellTypedRecord r = true) :
    ∃ msg, format_product_response (as_product r) = Except.ok msg := by
  obtain ⟨s, idv, ds, pq, sq, h1, h2, h3, h4, h5⟩ := wellTypedRecord_spec h
  have g1 : pyGetItem (as_product r) "name" = Except.ok (JValue.str s) := by
    simp [pyGetItem, as_product, List.lookup, h1]
  have g3 : pyGetItem (as_product r) "description" = Except.ok (JValue.str ds) := by
    simp [pyGetItem, as_product, List.lookup, h3]
  have g4 : pyGetItem (as_product r) "price" = Except.ok (JValue.num pq) := by
    simp [pyGetItem, as_product, List.lookup, h4]
  have g5 : pyGetItem (as_product r) "stock" = Except.ok (JValue.num sq) := by
    simp [pyGetItem, as_product, List.lookup, h5]
  refine ⟨"🛍️ Product: " ++ pyStr (JValue.str s) ++ "\n" ++
    "📄 Description: " ++ pyStr (JValue.str ds) ++ "\n" ++
    "💲 Price: $" ++ format2f pq ++ "\n" ++
    "📦 Stock: " ++ pyStr (JValue.num sq) ++ " units", ?_⟩
  simp only [format_product_response, g1, g3, g4, g5, ebind_ok, pyFormat2f]
  rfl

/-- The argument payload conforms to the declared function schema: the
parsed arguments form an object whose product_name value, when present,
is a string; arguments.get then yields a str — the stored one or the
empty-string default. -/
def schema_args : JValue → Bool
  | JValue.obj fields =>
    match List.lookup "product_name" fields with
    | some (JValue.str _) => true
    | none => true
    | some _ => false
  | _ => false

theorem schema_args_spec {v : JValue} (h : schema_args v = true) :
    ∃ n, pyGet v "product_name" (JValue.str "") = Except.ok (JValue.str n) := by
  cases v with
  | obj fields =>
    cases hl : List.lookup "product_name" fields with
    | none => exact ⟨"", by simp [pyGet, hl]⟩
    | some w =>
      cases w with
      | str s => exact ⟨s, by simp [pyGet, hl]⟩
      | null => simp [schema_args, hl] at h
      | bool b => simp [schema_args, hl] at h
      | num q => simp [schema_args, hl] at h
      | arr l => simp [schema_args, hl] at h
      | obj l => simp [schema_args, hl] at h
  | null => simp [schema_args] at h
  | bool b => simp [schema_args] at h
  | num q => simp [schema_args] at h
  | arr l => simp [schema_args] at h
  | str s => simp [schema_args] at h

theorem get_product_info_py_str (s : String) (C : List PyDict) :
    get_product_info_py (JValue.str s) C = get_product_info s C := by
  cases C <;> rfl

theorem check_stock_py_str (s : String) (C : List PyDict) :
    check_stock_py (JValue.str s) C = check_stock s C := by
  simp only [check_stock_py, check_stock, get_product_info_py_str]

theorem dispatch_total (f : String) (args : JValue) (C : List PyDict)
    (hargs : schema_args args = true) (h : wellTypedCatalog C = true) :
    ∃ msg, dispatch_response f args C = Except.ok msg := by
  obtain ⟨n, hget⟩ := schema_args_spec hargs
  rw [dispatch_response]
  by_cases hf : f = "get_product_info"
  · rw [if_pos hf, hget]
    simp only [ebind_ok]
    rw [get_product_info_py_str n C, gpi_char n C h]
    cases hfind : C.find? (name_matches n) with
    | none =>
      exact ⟨no_product_msg (pyStr (JValue.str n)), rfl⟩
    | some r =>
      obtain ⟨msg, hmsg⟩ := format_product_response_total (wellTypedRecord_of_find h hfind)
      exact ⟨msg, hmsg⟩
  · rw [if_neg hf]
    by_cases hc : f = "check_stock"
    · rw [if_pos hc, hget]
      simp only [ebind_ok]
      rw [check_stock_py_str n C, cs_char n C h]
      exact ⟨_, rfl⟩
    · rw [if_neg hc]
      exact ⟨unknown_function_msg, rfl⟩

/-! Claim C5. -/

/-- Counterexample to C5 as stated: quantified over every model response,
the claim fails — when the function-call arguments parse to an object
whose product_name value is not a string, or to a non-object value, the
dispatch raises AttributeError (inside lower() on the first catalog
record for the former, at arguments.get for the latter), so the turn dies
after the single first model call: the function result is never appended
and the second completion call is never made. -/
theorem claim_C5_nonconformant_args_cex :
    runTurn "hola" water_catalog
      (ModelResponse.functionCall "check_stock"
        (some (JValue.obj [("product_name", JValue.num 5)]))) "x" =
      Except.error PyError.attributeError ∧
    runTurn "hola" water_catalog
      (ModelResponse.functionCall "check_stock" (some (JValue.num 5))) "x" =
      Except.error PyError.attributeError :=
  ⟨rfl, rfl⟩

/-- C5 amended: on a well-typed catalog, every non-exit input whose
function-call argument payload conforms to the declared schema — the
parsed arguments are an object and its product_name value, when present,
is a string (parse failures count as the empty object) — makes at most
two outbound model calls before the turn returns control, and when the
first response requests a function call the dispatch result is appended
as a function-result turn tagged with the function name, after which the
second completion call happens strictly before any assistant text is
printed: the full event order of the turn is user append, first call,
function append, second call, print, assistant append. Without the
schema restriction the turn can instead die of AttributeError after the
first call. -/
theorem claim_C5_at_most_two_calls (input : String) (C : List PyDict)
    (resp1 : ModelResponse) (resp2 : String)
    (hexit : exit_phrases.contains (str_lower input) = false)
    (h : wellTypedCatalog C = true)
    (hargs : ∀ f v, resp1 = ModelResponse.functionCall f (some v) →
      schema_args v = true) :
    ∃ events ended, runTurn input C resp1 resp2 = Except.ok (events, ended) ∧
      numModelCalls events ≤ 2 ∧
      ∀ f args, resp1 = ModelResponse.functionCall f args →
        ∃ msg, dispatch_response f (args.getD (JValue.obj [])) C = Except.ok msg ∧
          events = [Event.append ⟨"user", none, input⟩, Event.modelCall1,
                    Event.append ⟨"function", some f, msg⟩, Event.modelCall2,
                    Event.print ("Asistente: " ++ resp2),
                    Event.append ⟨"assistant", none, resp2⟩] := by
  have hnmem : str_lower input ∉ exit_phrases := by simpa using hexit
  cases resp1 with
  | text c =>
    refine ⟨[Event.append ⟨"user", none, input⟩, Event.modelCall1,
      Event.print ("Asistente: " ++ c), Event.append ⟨"assistant", none, c⟩],
      false, ?_, ?_, ?_⟩
    · simp [runTurn, hnmem]
    · exact Nat.le_succ 1
    · intro f args hcontra
      exact ModelResponse.noConfusion hcontra
  | functionCall f0 args0 =>
    have hconf : schema_args (args0.getD (JValue.obj [])) = true := by
      cases args0 with
      | none => rfl
      | some v => exact hargs f0 v rfl
    obtain ⟨msg, hmsg⟩ := dispatch_total f0 (args0.getD (JValue.obj [])) C hconf h
    refine ⟨[Event.append ⟨"user", none, input⟩, Event.modelCall1,
      Event.append ⟨"function", some f0, msg⟩, Event.modelCall2,
      Event.print ("Asistente: " ++ resp2), Event.append ⟨"assistant", none, resp2⟩],
      false, ?_, Nat.le.refl, ?_⟩
    · simp [runTurn, hnmem, hmsg, pure, Except.pure]
    · intro f args heq
      injection heq with hf ha
      subst hf
      subst ha
      exact ⟨msg, hmsg, rfl⟩

/-- Witness for the amended C5 at a concrete turn: a check_stock request
for Water Bottle against the scenario catalog, whose dispatch message is
the out-of-stock line appended before the second call. -/
theorem claim_C5_at_most_two_calls_witness :
    ∃ events ended,
      runTurn "hay botellas?" water_catalog
        (ModelResponse.functionCall "check_stock"
          (some (JValue.obj [("product_name", JValue.str "Water Bottle")]))) "No hay stock." =
        Except.ok (events, ended) ∧
      numModelCalls events ≤ 2 ∧
      ∀ f args,
        ModelResponse.functionCall "check_stock"
            (some (JValue.obj [("product_name", JValue.str "Water Bottle")])) =
          ModelResponse.functionCall f args →
        ∃ msg, dispatch_response f (args.getD (JValue.obj [])) water_catalog = Except.ok msg ∧
          events = [Event.append ⟨"user", none, "hay botellas?"⟩, Event.modelCall1,
                    Event.append ⟨"function", some f, msg⟩, Event.modelCall2,
                    Event.print ("Asistente: " ++ "No hay stock."),
                    Event.append ⟨"assistant", none, "No hay stock."⟩] :=
  claim_C5_at_most_two_calls "hay botellas?" water_catalog
    (ModelResponse.functionCall "check_stock"
      (some (JValue.obj [("product_name", JValue.str "Water Bottle")]))) "No hay stock."
    rfl rfl
    (by
      intro f v hv
      injection hv with h1 h2
      injection h2 with h3
      rw [← h3]
      rfl)

/-! Claim C6. -/

/-- C6: when the argument payload of a requested function call fails to
parse, the turn behaves exactly as if the arguments were the empty dict —
arguments.get of product_name on the empty object yields the empty-string
default — and on a well-typed catalog the turn completes and the session
continues rather than aborting. -/
theorem claim_C6_parse_failure_empty_args (input : String) (C : List PyDict)
    (f : String) (resp2 : String)
    (hexit : exit_phrases.contains (str_lower input) = false)
    (h : wellTypedCatalog C = true) :
    runTurn input C (ModelResponse.functionCall f none) resp2 =
      runTurn input C (ModelResponse.functionCall f (some (JValue.obj []))) resp2 ∧
    pyGet (JValue.obj []) "product_name" (JValue.str "") = Except.ok (JValue.str "") ∧
    ∃ events, runTurn input C (ModelResponse.functionCall f none) resp2 =
      Except.ok (events, false) := by
  have hnmem : str_lower input ∉ exit_phrases := by simpa using hexit
  obtain ⟨msg, hmsg⟩ := dispatch_total f (JValue.obj []) C rfl h
  refine ⟨by simp [runTurn], rfl,
    ⟨[Event.append ⟨"user", none, input⟩, Event.modelCall1,
      Event.append ⟨"function", some f, msg⟩, Event.modelCall2,
      Event.print ("Asistente: " ++ resp2), Event.append ⟨"assistant", none, resp2⟩],
      by simp [runTurn, hnmem, hmsg, pure, Except.pure]⟩⟩

/-- Witness for C6: an unparsable check_stock payload against the scenario
catalog still produces a completed, non-exiting turn. -/
theorem claim_C6_parse_failure_empty_args_witness :
    runTurn "hay botellas?" water_catalog (ModelResponse.functionCall "check_stock" none)
        "Claro." =
      runTurn "hay botellas?" water_catalog
        (ModelResponse.functionCall "check_stock" (some (JValue.obj []))) "Claro." ∧
    pyGet (JValue.obj []) "product_name" (JValue.str "") = Except.ok (JValue.str "") ∧
    ∃ events, runTurn "hay botellas?" water_catalog
        (ModelResponse.functionCall "check_stock" none) "Claro." =
      Except.ok (events, false) :=
  claim_C6_parse_failure_empty_args "hay botellas?" water_catalog "check_stock" "Claro."
    rfl rfl

/-! Claim C7. -/

/-- C7: a requested function whose name is neither get_product_info nor
check_stock produces the unknown-function message as the function result
turn, tagged with the requested name, and the turn completes normally with
the session continuing — the condition is local and non-fatal. -/
theorem claim_C7_unknown_function (input : String) (C : List PyDict)
    (f : String) (args : Option JValue) (resp2 : String)
    (hexit : exit_phrases.contains (str_lower input) = false)
    (hf1 : f ≠ "get_product_info") (hf2 : f ≠ "check_stock") :
    runTurn input C (ModelResponse.functionCall f args) resp2 =
      Except.ok ([Event.append ⟨"user", none, input⟩, Event.modelCall1,
        Event.append ⟨"function", some f, unknown_function_msg⟩,
        Event.modelCall2, Event.print ("Asistente: " ++ resp2),
        Event.append ⟨"assistant", none, resp2⟩], false) := by
  have hnmem : str_lower input ∉ exit_phrases := by simpa using hexit
  simp [runTurn, hnmem, dispatch_response, hf1, hf2, pure, Except.pure]

/-- Witness for C7 at a concrete unknown function name. -/
theorem claim_C7_unknown_function_witness :
    runTurn "dime" water_catalog (ModelResponse.functionCall "delete_catalog" none)
        "No puedo." =
      Except.ok ([Event.append ⟨"user", none, "dime"⟩, Event.modelCall1,
        Event.append ⟨"function", some "delete_catalog", unknown_function_msg⟩,
        Event.modelCall2, Event.print ("Asistente: " ++ "No puedo."),
        Event.append ⟨"assistant", none, "No puedo."⟩], false) :=
  claim_C7_unknown_function "dime" water_catalog "delete_catalog" none "No puedo."
    rfl (by decide) (by decide)

/-! Claim C8. -/

theorem ebind_ok_inv {ε α β : Type} {x : Except ε α} {f : α → Except ε β} {b : β}
    (h : x >>= f = Except.ok b) : ∃ a, x = Except.ok a ∧ f a = Except.ok b := by
  cases x with
  | error e => simp at h
  | ok a => exact ⟨a, rfl, by simpa using h⟩

/-- C8: whenever get_product_info finds a match, the returned dict is a
newly constructed value holding exactly the five keys id, name,
description, price, stock in that order, with values looked up from some
matching record of the catalog — the projection as_product of that
record. Any extra keys of the record are dropped, so the result is built
fresh from the record rather than being the record itself; in the Python
source the result is a dict literal, which is why mutating it cannot
change the catalog. -/
theorem claim_C8_fresh_five_key_dict (q : String) :
    ∀ (C : List PyDict) (d : PyDict),
      get_product_info q C = Except.ok (some d) →
      d.map Prod.fst = ["id", "name", "description", "price", "stock"] ∧
      ∃ r, r ∈ C ∧ name_matches q r = true ∧ d = as_product r := by
  intro C
  induction C with
  | nil =>
    intro d h
    exact absurd h (by simp [get_product_info])
  | cons r rest ih =>
    intro d h
    simp only [get_product_info] at h
    cases hn : pyGetItem r "name" with
    | error e => rw [hn] at h; simp at h
    | ok namev =>
      rw [hn] at h
      simp only [ebind_ok] at h
      cases namev with
      | str s =>
        simp only [pyLower, ebind_ok] at h
        by_cases hm : str_lower s = str_lower q
        · rw [if_pos hm] at h
          obtain ⟨idv, hid, h⟩ := ebind_ok_inv h
          obtain ⟨descv, hdesc, h⟩ := ebind_ok_inv h
          obtain ⟨pricev, hprice, h⟩ := ebind_ok_inv h
          obtain ⟨stockv, hstock, h⟩ := ebind_ok_inv h
          have hd : d = [("id", idv), ("name", JValue.str s), ("description", descv),
              ("price", pricev), ("stock", stockv)] := by
            simpa [pure, Except.pure] using h.symm
          subst hd
          refine ⟨rfl, r, List.mem_cons_self r rest, ?_, ?_⟩
          · rw [name_matches, pyGetItem_ok.mp hn]
            simp [hm]
          · simp [as_product, pyGetItem_ok.mp hn, pyGetItem_ok.mp hid,
              pyGetItem_ok.mp hdesc, pyGetItem_ok.mp hprice, pyGetItem_ok.mp hstock]
        · rw [if_neg hm] at h
          obtain ⟨hkeys, r', hr', hnm, hd⟩ := ih d h
          exact ⟨hkeys, r', List.mem_cons_of_mem _ hr', hnm, hd⟩
      | null => simp [pyLower] at h
      | bool b2 => simp [pyLower] at h
      | num n2 => simp [pyLower] at h
      | arr l2 => simp [pyLower] at h
      | obj l2 => simp [pyLower] at h

/-- A record carrying a sixth key beyond the five product fields. -/
def gadget_record : PyDict :=
  [("id", JValue.num 7), ("name", JValue.str "Gadget"), ("description", JValue.str "handy"),
   ("price", JValue.num 5), ("stock", JValue.num 2), ("category", JValue.str "tools")]

/-- Witness for C8 on a record with an extra category key: the returned
dict has exactly the five product keys, so the extra key was dropped and
the result is not the catalog record. -/
theorem claim_C8_fresh_five_key_dict_witness :
    ([("id", JValue.num 7), ("name", JValue.str "Gadget"), ("description", JValue.str "handy"),
      ("price", JValue.num 5), ("stock", JValue.num 2)] : PyDict).map Prod.fst =
      ["id", "name", "description", "price", "stock"] ∧
    ∃ r, r ∈ [gadget_record] ∧ name_matches "gadget" r = true ∧
      ([("id", JValue.num 7), ("name", JValue.str "Gadget"), ("description", JValue.str "handy"),
        ("price", JValue.num 5), ("stock", JValue.num 2)] : PyDict) = as_product r :=
  claim_C8_fresh_five_key_dict "gadget" [gadget_record] _ rfl

/-! Claim C10. -/

/-- The function result produced by the check_stock branch of the
dispatch, as a function of the requested product name. -/
def check_stock_dispatch (n : String) (C : List PyDict) : Except PyError String :=
  dispatch_response "check_stock" (JValue.obj [("product_name", JValue.str n)]) C

/-- The function result produced by the get_product_info branch of the
dispatch, as a function of the requested product name. -/
def get_product_info_dispatch (n : String) (C : List PyDict) : Except PyError String :=
  dispatch_response "get_product_info" (JValue.obj [("product_name", JValue.str n)]) C

theorem string_append_ne_of_head (a b : Char) (hab : a ≠ b) (s1 s2 t1 t2 : String)
    (h1 : s1.data.head? = some a) (h2 : t1.data.head? = some b) :
    s1 ++ s2 ≠ t1 ++ t2 := by
  intro h
  have hd := congrArg String.data h
  rw [String.data_append, String.data_append] at hd
  have hs1 : s1.data ≠ [] := by intro hnil; rw [hnil] at h1; cases h1
  have ht1 : t1.data ≠ [] := by intro hnil; rw [hnil] at h2; cases h2
  have e1 : (s1.data ++ s2.data).head? = some a := by
    rw [List.head?_append_of_ne_nil s1.data hs1]; exact h1
  have e2 : (t1.data ++ t2.data).head? = some b := by
    rw [List.head?_append_of_ne_nil t1.data ht1]; exact h2
  rw [hd, e2] at e1
  exact hab (Option.some.inj e1).symm

/-- C10: the check_stock function result is the same out-of-stock message
whether the queried name is absent from the catalog or present with zero
stock — the user-visible result does not distinguish the two cases —
while get_product_info produces a distinct no-product-found message for
the absent name. -/
theorem claim_C10_stock_indistinguishable (n : String) (C1 C2 : List PyDict) (r : PyDict)
    (h1 : wellTypedCatalog C1 = true) (hn1 : C1.find? (name_matches n) = none)
    (h2 : wellTypedCatalog C2 = true) (hn2 : C2.find? (name_matches n) = some r)
    (hs : List.lookup "stock" r = some (JValue.num 0)) :
    check_stock_dispatch n C1 = Except.ok (out_of_stock_msg n) ∧
    check_stock_dispatch n C2 = Except.ok (out_of_stock_msg n) ∧
    get_product_info_dispatch n C1 = Except.ok (no_product_msg n) ∧
    no_product_msg n ≠ out_of_stock_msg n := by
  have hne : ¬("check_stock" = "get_product_info") := by decide
  have harg : pyGet (JValue.obj [("product_name", JValue.str n)]) "product_name"
      (JValue.str "") = Except.ok (JValue.str n) := rfl
  refine ⟨?_, ?_, ?_, ?_⟩
  · rw [check_stock_dispatch, dispatch_response, if_neg hne, if_pos rfl, harg]
    simp only [ebind_ok]
    rw [check_stock_py_str n C1, cs_char n C1 h1]
    simp [hn1, pyStr, pure, Except.pure]
  · rw [check_stock_dispatch, dispatch_response, if_neg hne, if_pos rfl, harg]
    simp only [ebind_ok]
    rw [check_stock_py_str n C2, cs_char n C2 h2]
    simp [hn2, hs, pyStr, pure, Except.pure]
  · rw [get_product_info_dispatch, dispatch_response, if_pos rfl, harg]
    simp only [ebind_ok]
    rw [get_product_info_py_str n C1, gpi_char n C1 h1]
    simp [hn1, pyStr, pure, Except.pure]
  · rw [no_product_msg, out_of_stock_msg]
    exact string_append_ne_of_head '❌' '⚠' (by decide) _ _ _ _
      (by decide) (by decide)

/-- Witness for C10: the empty catalog versus the scenario catalog whose
Water Bottle record has zero stock produce the identical out-of-stock
line for the same query. -/
theorem claim_C10_stock_indistinguishable_witness :
    check_stock_dispatch "water bottle" [] = Except.ok (out_of_stock_msg "water bottle") ∧
    check_stock_dispatch "water bottle" water_catalog =
      Except.ok (out_of_stock_msg "water bottle") ∧
    get_product_info_dispatch "water bottle" [] =
      Except.ok (no_product_msg "water bottle") ∧
    no_product_msg "water bottle" ≠ out_of_stock_msg "water bottle" :=
  claim_C10_stock_indistinguishable "water bottle" [] water_catalog
    [("id", JValue.num 1), ("name", JValue.str "Water Bottle"),
     ("description", JValue.str "Reusable bottle"),
     ("price", JValue.num 9.99), ("stock", JValue.num 0)] rfl rfl rfl rfl rfl
